import Mathlib

/-!
Verification of the connection-manager / voice-command core of the
`livekit_voice_agent` backend (files `backend/websocket_manager.py` and
`backend/voice_commands.py`), shallowly embedded in Lean.

Conventions of the embedding:
* a WebSocket connection handle is modelled as a natural number;
* room names and user identities are strings;
* Python `dict`s are modelled as `AList`s (association lists with distinct
  keys), Python `set`s of connections as `Finset ℕ`;
* `await connection.send_json(...)` either succeeds or raises; a call of a
  broadcast function is therefore parametrised by the set `fails` of
  connections whose send raises, and returns the list of connections a send
  was attempted on together with the updated registry state.
-/

namespace VoiceAgent

/-! ## Regular-expression engine

`voice_commands.py` matches transcripts with `re.search` over a fixed
pattern table.  The patterns only use literals, character classes,
alternation `(a|b)`, optional groups `(...)?` / `x?` and the word-boundary
assertion `\x62`.  `Rx` is exactly that fragment; `rxSearch` implements
Python `re.search` existence semantics (is there a match starting at some
position?) with `re.IGNORECASE` comparison.
-/

inductive Rx where
  | eps : Rx
  | lit : Char → Rx
  | cls : List Char → Rx
  | cat : Rx → Rx → Rx
  | alt : Rx → Rx → Rx
  | opt : Rx → Rx
  | wb  : Rx
deriving Repr

/-- Python `\w`: `[a-zA-Z0-9_]` (ASCII inputs only in this code base). -/
def isWordChar (c : Char) : Bool := c.isAlphanum || c == '_'

/-- A word boundary sits between a word char and a non-word char (string
ends count as non-word). `prev` is the character just before the current
position, `rest` the remaining input. -/
def atBoundary (prev : Option Char) (rest : List Char) : Bool :=
  let pw := match prev with | none => false | some c => isWordChar c
  let nw := match rest with | [] => false | c :: _ => isWordChar c
  pw != nw

/-- All ways a regex can consume a prefix of `s`; each result is the new
"previous character" together with the unconsumed suffix.  Comparison is
case-insensitive (`re.IGNORECASE`). -/
def rxMatch : Rx → Option Char → List Char → List (Option Char × List Char)
  | .eps, p, s => [(p, s)]
  | .lit c, _, s =>
      match s with
      | [] => []
      | c2 :: rest => if c2.toLower == c.toLower then [(some c2, rest)] else []
  | .cls cs, _, s =>
      match s with
      | [] => []
      | c2 :: rest =>
          if cs.any (fun c => c2.toLower == c.toLower) then [(some c2, rest)] else []
  | .cat a b, p, s => (rxMatch a p s).flatMap (fun pr => rxMatch b pr.1 pr.2)
  | .alt a b, p, s => rxMatch a p s ++ rxMatch b p s
  | .opt a, p, s => (p, s) :: rxMatch a p s
  | .wb, p, s => if atBoundary p s then [(p, s)] else []

/-- Does the regex match starting at the current position or any later one
(`re.search`)? -/
def searchAux (r : Rx) : Option Char → List Char → Bool
  | p, s =>
    if (rxMatch r p s).isEmpty then
      match s with
      | [] => false
      | c :: rest => searchAux r (some c) rest
    else true

def rxSearch (r : Rx) (s : String) : Bool := searchAux r none s.data

/-- Sequence of literal characters. -/
def strRx (s : String) : Rx := (s.data.map Rx.lit).foldr Rx.cat Rx.eps

/-- Concatenation of a list of regexes. -/
def cats (rs : List Rx) : Rx := rs.foldr Rx.cat Rx.eps

/-- Alternation of a non-empty list of regexes. -/
def alts : List Rx → Rx
  | [] => Rx.eps
  | [r] => r
  | r :: rs => Rx.alt r (alts rs)

/-- The ASCII apostrophe that appears in the source patterns as the
character class written with two apostrophes between square brackets. -/
def apos : Char := Char.ofNat 39

/-! ## The command catalog

Transcription of `VoiceCommandSystem._initialize_commands`:
one entry per command, in Python dict insertion order, with each raw regex
pattern translated to an `Rx` term.  (Description / category / example
strings play no role in recognition or execution and are omitted.)
-/

def pausePatterns : List Rx :=
  [ cats [.wb, alts [strRx "pause", strRx "stop", strRx "wait"], .wb],
    cats [.wb, strRx "hang on", .wb],
    cats [.wb, strRx "give me ", .opt (strRx "a "), strRx "second", .wb] ]

def resumePatterns : List Rx :=
  [ cats [.wb, alts [strRx "resume", strRx "continue", strRx "go on"], .wb],
    cats [.wb, strRx "let", .opt (.lit 's'), strRx " continue", .wb],
    cats [.wb, strRx "keep going", .wb] ]

def repeatPatterns : List Rx :=
  [ cats [.wb, alts [strRx "repeat",
                     cats [strRx "say ", .opt (strRx "that "), strRx "again"]], .wb],
    cats [.wb, strRx "can you repeat", .wb],
    cats [.wb, strRx "what did you say", .wb],
    cats [.wb, strRx "didnt ", alts [strRx "catch", strRx "hear"], strRx " that", .wb] ]

def slowDownPatterns : List Rx :=
  [ cats [.wb, alts [strRx "slow down", strRx "go slower", strRx "too fast"], .wb],
    cats [.wb, strRx "you", .opt (.cls [apos, apos]), strRx "re going too ",
          alts [strRx "fast", strRx "quick"], .wb],
    cats [.wb, strRx "slower please", .wb] ]

def speedUpPatterns : List Rx :=
  [ cats [.wb, alts [strRx "speed up", strRx "go faster", strRx "too slow"], .wb],
    cats [.wb, strRx "faster please", .wb],
    cats [.wb, strRx "you", .opt (.cls [apos, apos]), strRx "re going too slow", .wb] ]

def examplePatterns : List Rx :=
  [ cats [.wb, strRx "give ", .opt (strRx "me "), .opt (strRx "an "), strRx "example", .wb],
    cats [.wb, strRx "show ", .opt (strRx "me "), .opt (strRx "an "), strRx "example", .wb],
    cats [.wb, strRx "can ", alts [strRx "you", strRx "i"], strRx " ",
          alts [strRx "have", strRx "get", strRx "see"], strRx " ",
          .opt (strRx "an "), strRx "example", .wb] ]

def summaryPatterns : List Rx :=
  [ cats [.wb, alts [strRx "summarize", strRx "summary", strRx "recap"], .wb],
    cats [.wb, strRx "what did we ", alts [strRx "cover", strRx "learn"], .wb],
    cats [.wb, strRx "summarize ", alts [strRx "what", strRx "everything"],
          strRx " we ", alts [strRx "covered", strRx "learned"], .wb] ]

def nextTopicPatterns : List Rx :=
  [ cats [.wb, alts [cats [strRx "next ", alts [strRx "topic", strRx "subject"]],
                     strRx "move on", strRx "skip"], .wb],
    cats [.wb, strRx "can we move ", alts [strRx "on", strRx "forward"], .wb],
    cats [.wb, strRx "let", .opt (.lit 's'), strRx " ", alts [strRx "do", strRx "try"],
          strRx " ", .opt (strRx "the "), strRx "next ",
          alts [strRx "one", strRx "topic"], .wb] ]

def previousTopicPatterns : List Rx :=
  [ cats [.wb, alts [strRx "previous", strRx "last", strRx "go back"], strRx " ",
          alts [strRx "topic", strRx "subject"], .wb],
    cats [.wb, strRx "go back to ", .opt (strRx "the "),
          alts [strRx "last", strRx "previous"], .wb] ]

def confusedPatterns : List Rx :=
  [ cats [.wb, .opt (alts [cats [.lit 'i', .opt (.lit 'm'), .lit ' '], strRx "i am "]),
          alts [strRx "confused", strRx "lost", strRx "dont understand"], .wb],
    cats [.wb, strRx "this ", alts [strRx "is ", strRx "makes "], strRx "no sense", .wb],
    cats [.wb, strRx "i dont get ", alts [strRx "it", strRx "this"], .wb] ]

def clarifyPatterns : List Rx :=
  [ cats [.wb, alts [strRx "clarify",
                     cats [strRx "explain ",
                           alts [strRx "again", strRx "more", strRx "better"]]], .wb],
    cats [.wb, strRx "can you ", alts [strRx "clarify", strRx "elaborate"], .wb],
    cats [.wb, strRx "explain ", alts [strRx "that", strRx "this"],
          strRx " differently", .wb] ]

def hintPatterns : List Rx :=
  [ cats [.wb, alts [cats [strRx "give ", .opt (strRx "me "), strRx "a hint"],
                     strRx "need a hint"], .wb],
    cats [.wb, strRx "can ", alts [strRx "you", strRx "i"], strRx " ",
          alts [strRx "have", strRx "get"], strRx " a hint", .wb] ]

def practicePatterns : List Rx :=
  [ cats [.wb, alts [strRx "practice", strRx "quiz", strRx "test"], strRx " ",
          alts [strRx "me", strRx "question"], .wb],
    cats [.wb, strRx "give me ", .opt (strRx "a "),
          .opt (alts [strRx "practice ", strRx "quiz "]), strRx "question", .wb],
    cats [.wb, strRx "let", .opt (.lit 's'), strRx " practice", .wb] ]

def answerPatterns : List Rx :=
  [ cats [.wb, alts [strRx "show", strRx "tell", strRx "give"], strRx " ",
          .opt (strRx "me "), .opt (strRx "the "), strRx "answer", .wb],
    cats [.wb, strRx "what", .opt (.cls [apos, apos]), strRx "s the answer", .wb],
    cats [.wb, strRx "show solution", .wb] ]

def progressPatterns : List Rx :=
  [ cats [.wb, .opt (alts [strRx "my ", strRx "show "]),
          alts [strRx "progress", strRx "stats", strRx "statistics"], .wb],
    cats [.wb, strRx "how am i doing", .wb],
    cats [.wb, strRx "what", .opt (.cls [apos, apos]), strRx "s my ",
          alts [strRx "score", strRx "progress"], .wb] ]

def endSessionPatterns : List Rx :=
  [ cats [.wb, alts [strRx "end", strRx "finish", strRx "stop"], strRx " ",
          .opt (strRx "the "), strRx "session", .wb],
    cats [.wb, alts [cats [.lit 'i', .opt (.lit 'm'), .lit ' '], strRx "i am "],
          strRx "done", .wb],
    cats [.wb, strRx "let", .opt (.lit 's'), strRx " ",
          alts [strRx "finish", strRx "end", strRx "stop"], .wb] ]

/-- The command catalog in Python-dict insertion (= iteration) order. -/
def commands : List (String × List Rx) :=
  [ ("pause", pausePatterns),
    ("resume", resumePatterns),
    ("repeat", repeatPatterns),
    ("slow_down", slowDownPatterns),
    ("speed_up", speedUpPatterns),
    ("example", examplePatterns),
    ("summary", summaryPatterns),
    ("next_topic", nextTopicPatterns),
    ("previous_topic", previousTopicPatterns),
    ("confused", confusedPatterns),
    ("clarify", clarifyPatterns),
    ("hint", hintPatterns),
    ("practice", practicePatterns),
    ("answer", answerPatterns),
    ("progress", progressPatterns),
    ("end_session", endSessionPatterns) ]

/-! ## Recognizer and executor -/

/-- Python `str.lower()` (ASCII inputs). -/
def pyLower (s : String) : String := String.mk (s.data.map Char.toLower)

/-- Python `str.strip()`: drop leading and trailing whitespace. -/
def pyStrip (s : String) : String :=
  String.mk (((s.data.dropWhile Char.isWhitespace).reverse.dropWhile
      Char.isWhitespace).reverse)

/-- `VoiceCommandSystem.recognize_command`: lower-case and strip the text,
then return the first catalog command one of whose patterns matches. -/
def recognize_command (text : String) : Option String :=
  let t := pyStrip (pyLower text)
  (commands.find? (fun cmd => cmd.2.any (fun p => rxSearch p t))).map (fun cmd => cmd.1)

/-- The result dictionary of `execute_command`.  Keys that a given branch
does not put in the Python dict are modelled as `none`. -/
structure ExecResult where
  success : Bool
  command : Option String
  action : Option String
  params : Option (List (String × Bool))
  response : Option String
  error : Option String
deriving Repr, DecidableEq

/-- Membership test `command_name in self.commands`. -/
def catalogHas (name : String) : Bool := commands.any (fun c => c.1 == name)

/-- The `actions` mapping built inside `execute_command`:
name ↦ (action, params, response). -/
def actions : List (String × (String × Option (List (String × Bool)) × String)) :=
  [ ("pause", ("pause_session", none, "Session paused. Say \x27continue\x27 when ready.")),
    ("resume", ("resume_session", none, "Continuing...")),
    ("repeat", ("repeat_last", none, "Let me repeat that...")),
    ("slow_down", ("adjust_pace", some [("slower", true)], "Slowing down...")),
    ("speed_up", ("adjust_pace", some [("slower", false)], "Speeding up...")),
    ("example", ("provide_example", none, "Here\x27s an example...")),
    ("summary", ("summarize", none, "Let me summarize what we\x27ve covered...")),
    ("next_topic", ("next_topic", none, "Moving to the next topic...")),
    ("previous_topic", ("previous_topic", none, "Going back to the previous topic...")),
    ("confused", ("address_confusion", none, "Let me explain this differently...")),
    ("clarify", ("clarify", none, "Let me clarify that...")),
    ("hint", ("give_hint", none, "Here\x27s a hint...")),
    ("practice", ("generate_practice", none, "Here\x27s a practice question...")),
    ("answer", ("show_answer", none, "The answer is...")),
    ("progress", ("show_progress", none, "Here\x27s your progress...")),
    ("end_session", ("end_session", none, "Ending session. Great work today!")) ]

/-- `VoiceCommandSystem.execute_command` (the `context` argument is unused
by the source and omitted).  Unknown names yield a `success = false`
failure dict; catalog names yield the mapped action (or the
"not implemented" default) with `success = true` and the echoed name.
The source raises no exception on any input; the model is total. -/
def execute_command (name : String) : ExecResult :=
  if catalogHas name then
    let a := ((actions.find? (fun c => c.1 == name)).map (fun c => c.2)).getD
      ("unknown", none, "Command not implemented")
    ⟨true, some name, some a.1, a.2.1, some a.2.2, none⟩
  else
    ⟨false, none, none, none, none, some ("Unknown command: " ++ name)⟩

/-! ## Connection manager

Embedding of `ConnectionManager` from `backend/websocket_manager.py`.
Connections are naturals, rooms and identities strings.
`active_connections : Dict[str, Set[WebSocket]]` becomes an association
list from room name to `Finset ℕ`; `user_connections : Dict[str, WebSocket]`
an association list from identity to connection. -/

structure ConnectionManager where
  active_connections : AList (fun _ : String => Finset ℕ)
  user_connections : AList (fun _ : String => ℕ)
deriving DecidableEq

/-- `ConnectionManager.__init__`: both dicts empty. -/
def emptyCM : ConnectionManager := ⟨∅, ∅⟩

/-- The member set of a room (`∅` when the room key is absent). -/
def roomMembers (s : ConnectionManager) (room : String) : Finset ℕ :=
  (s.active_connections.lookup room).getD ∅

/-- `ConnectionManager.connect`: create the room entry if absent, add the
connection to the room set, and overwrite the identity mapping.  The
`accept` handshake and the welcome message do not touch the registry
(`send_personal_message` swallows send errors), so they have no effect in
the state model. -/
def connect (s : ConnectionManager) (ws : ℕ) (room : String) (user : String) :
    ConnectionManager :=
  ⟨s.active_connections.insert room (insert ws (roomMembers s room)),
   s.user_connections.insert user ws⟩

/-- `ConnectionManager.disconnect`: discard the connection from the room
set and delete the room entry when the set becomes empty; then delete the
identity key whenever it is present — the source deletes it without
comparing the stored connection with `ws`. -/
def disconnect (s : ConnectionManager) (ws : ℕ) (room : String) (user : String) :
    ConnectionManager :=
  let active :=
    match s.active_connections.lookup room with
    | none => s.active_connections
    | some ms =>
        if ms.erase ws = ∅ then s.active_connections.erase room
        else s.active_connections.insert room (ms.erase ws)
  let users :=
    if (s.user_connections.lookup user).isSome then s.user_connections.erase user
    else s.user_connections
  ⟨active, users⟩

/-- `ConnectionManager.get_room_participants`: member-set size, 0 when the
room is absent. -/
def get_room_participants (s : ConnectionManager) (room : String) : ℕ :=
  match s.active_connections.lookup room with
  | none => 0
  | some ms => ms.card

/-- `ConnectionManager.get_all_rooms`: the room keys. -/
def get_all_rooms (s : ConnectionManager) : List String :=
  s.active_connections.keys

/-- `ConnectionManager.broadcast_to_room`: if the room is absent, return at
once.  Otherwise attempt a send to every member except `exclude`; sends
raising (`fails`) are collected into `disconnected`, which is subtracted
from the room set after the loop (`active_connections[room] -=
disconnected`; note the room key is kept even if the set becomes empty).
Returns the connections a send was attempted on and the new state; all
send exceptions are caught inside the loop, so the function always returns
normally. -/
def broadcast_to_room (s : ConnectionManager) (room : String)
    (exclude : Option ℕ) (fails : Finset ℕ) : Finset ℕ × ConnectionManager :=
  match s.active_connections.lookup room with
  | none => (∅, s)
  | some ms =>
      let sent := ms.filter (fun c => some c ≠ exclude)
      let disconnected := sent.filter (fun c => c ∈ fails)
      (sent,
       ⟨s.active_connections.insert room (ms \ disconnected),
        s.user_connections⟩)

/-- `ConnectionManager.broadcast_all`: attempt a send to every connection
of every room; exceptions are caught and logged, and — unlike
`broadcast_to_room` — no connection is removed: the registry state is
returned unchanged. -/
def broadcast_all (s : ConnectionManager) (_fails : Finset ℕ) :
    Finset ℕ × ConnectionManager :=
  (s.active_connections.entries.foldr (fun e acc => e.snd ∪ acc) ∅, s)

/-! ## Reachability

States reachable from the fresh registry by `connect` / `disconnect`
calls, and the variant where a connection is only ever connected while it
is a member of no room. -/

inductive Reachable : ConnectionManager → Prop
  | empty : Reachable emptyCM
  | conn {s : ConnectionManager} (ws : ℕ) (room user : String) :
      Reachable s → Reachable (connect s ws room user)
  | disc {s : ConnectionManager} (ws : ℕ) (room user : String) :
      Reachable s → Reachable (disconnect s ws room user)

inductive ReachableFresh : ConnectionManager → Prop
  | empty : ReachableFresh emptyCM
  | conn {s : ConnectionManager} (ws : ℕ) (room user : String) :
      ReachableFresh s → (∀ r, ws ∉ roomMembers s r) →
      ReachableFresh (connect s ws room user)
  | disc {s : ConnectionManager} (ws : ℕ) (room user : String) :
      ReachableFresh s → ReachableFresh (disconnect s ws room user)

/-! ## Basic lemmas about the registry operations -/

lemma roomMembers_empty (r : String) : roomMembers emptyCM r = ∅ := by
  simp [roomMembers, emptyCM, AList.lookup_empty]

lemma roomMembers_connect (s : ConnectionManager) (ws : ℕ) (room user r : String) :
    roomMembers (connect s ws room user) r =
      if r = room then insert ws (roomMembers s room) else roomMembers s r := by
  by_cases e : r = room
  · subst e
    simp [roomMembers, connect, AList.lookup_insert]
  · simp [roomMembers, connect, AList.lookup_insert_ne e, e]

lemma roomMembers_disconnect_subset (s : ConnectionManager) (ws : ℕ)
    (room user r : String) :
    roomMembers (disconnect s ws room user) r ⊆ roomMembers s r := by
  unfold disconnect roomMembers
  cases hh : s.active_connections.lookup room with
  | none => simp
  | some ms =>
      dsimp only
      split_ifs with he
      · by_cases e : r = room
        · subst e
          rw [AList.lookup_erase]
          simp
        · rw [AList.lookup_erase_ne e]
      · by_cases e : r = room
        · subst e
          rw [AList.lookup_insert, hh]
          simpa using Finset.erase_subset ws ms
        · rw [AList.lookup_insert_ne e]

lemma mem_foldr_union {l : List (Sigma (fun _ : String => Finset ℕ))}
    {a : String} {b : Finset ℕ} {c : ℕ}
    (hl : (Sigma.mk a b) ∈ l) (hc : c ∈ b) :
    c ∈ l.foldr (fun e acc => e.snd ∪ acc) ∅ := by
  induction l with
  | nil => cases hl
  | cons e t ih =>
      rcases List.mem_cons.mp hl with h | h
      · subst h
        exact Finset.mem_union_left _ hc
      · exact Finset.mem_union_right _ (ih h)

/-! ## Claim theorems -/

/-- C4.  `execute_command` never raises (the model is total); the result
has `success = true` exactly when the name is a catalog entry, and for any
non-catalog name the result is the failure dict with error message
"Unknown command: <name>". -/
theorem execute_success_iff_catalog (name : String) :
    ((execute_command name).success = true ↔ catalogHas name = true) ∧
    (catalogHas name = false →
      execute_command name =
        ⟨false, none, none, none, none, some ("Unknown command: " ++ name)⟩) := by
  unfold execute_command
  by_cases h : catalogHas name <;> simp [h]

/-- Witness for C4 at the concrete input of the spec, `"nonexistent_command"`. -/
theorem execute_success_iff_catalog_witness :
    execute_command "nonexistent_command" =
      ⟨false, none, none, none, none,
       some ("Unknown command: " ++ "nonexistent_command")⟩ :=
  (execute_success_iff_catalog "nonexistent_command").2 (by decide)

/-- The text of the spec scenario: capital I, apostrophe, then "m totally lost here". -/
def lostHereText : String := "I" ++ String.mk [apos] ++ "m totally lost here"

/-- C5.  Scenario: "Can you slow down please?" is recognized as
`slow_down`; executing `slow_down` yields the adjust-pace descriptor with
`slower = true`, `success = true` and the echoed command name; and
the lost-here text is recognized as `confused`. -/
theorem scenario_slow_down_confused :
    recognize_command "Can you slow down please?" = some "slow_down" ∧
    execute_command "slow_down" =
      ⟨true, some "slow_down", some "adjust_pace", some [("slower", true)],
       some "Slowing down...", none⟩ ∧
    recognize_command lostHereText = some "confused" :=
  ⟨by decide, by decide, by decide⟩

/-- C9.  The patterns are word-boundary anchored: "pauseless" matches no
catalog pattern, so `recognize_command` returns no command at all (in
particular not `"pause"`). -/
theorem pauseless_not_recognized :
    recognize_command "pauseless" = none ∧
    recognize_command "pause" = some "pause" :=
  ⟨by decide, by decide⟩

/-- C8.  Broadcasting to any room of any registry state with
`exclude = some c` never attempts a send on `c`. -/
theorem broadcast_never_sends_excluded (s : ConnectionManager) (room : String)
    (c : ℕ) (fails : Finset ℕ) :
    c ∉ (broadcast_to_room s room (some c) fails).1 := by
  unfold broadcast_to_room
  cases hh : s.active_connections.lookup room with
  | none => simp
  | some ms => simp

/-- C10.  Broadcasting to a room name that is absent from the registry
returns normally with no send attempted and the state — membership map and
identity index — unchanged. -/
theorem broadcast_absent_room_noop (s : ConnectionManager) (room : String)
    (exclude : Option ℕ) (fails : Finset ℕ)
    (h : s.active_connections.lookup room = none) :
    broadcast_to_room s room exclude fails = (∅, s) := by
  unfold broadcast_to_room
  rw [h]

/-- Witness for C10: broadcasting to the absent room "nope" of the fresh
registry is a no-op. -/
theorem broadcast_absent_room_noop_witness :
    broadcast_to_room emptyCM "nope" none ∅ = (∅, emptyCM) :=
  broadcast_absent_room_noop emptyCM "nope" none ∅ (AList.lookup_empty "nope")

/-- C7.  Starting from a state where room `room` has no members and
identity `user` no mapping, `connect` then `disconnect` for the same
triple leaves the participant count at 0 and the room name absent from
`get_all_rooms`. -/
theorem connect_disconnect_roundtrip (s : ConnectionManager) (ws : ℕ)
    (room user : String)
    (hr : roomMembers s room = ∅)
    (_hu : s.user_connections.lookup user = none) :
    get_room_participants (disconnect (connect s ws room user) ws room user) room = 0 ∧
    room ∉ get_all_rooms (disconnect (connect s ws room user) ws room user) := by
  have h1 : (connect s ws room user).active_connections.lookup room =
      some (insert ws (roomMembers s room)) := by
    simp [connect, AList.lookup_insert]
  rw [hr] at h1
  have hact : (disconnect (connect s ws room user) ws room user).active_connections
      = (connect s ws room user).active_connections.erase room := by
    unfold disconnect
    rw [h1]
    simp
  constructor
  · unfold get_room_participants
    rw [hact, AList.lookup_erase]
  · unfold get_all_rooms
    rw [hact]
    intro hk
    have hmem := AList.mem_keys.mpr hk
    rw [AList.mem_erase] at hmem
    exact hmem.1 rfl

/-- Witness for C7: connect then disconnect of connection 0 in room "r"
on the fresh registry. -/
theorem connect_disconnect_roundtrip_witness :
    get_room_participants (disconnect (connect emptyCM 0 "r" "u") 0 "r" "u") "r" = 0 ∧
    "r" ∉ get_all_rooms (disconnect (connect emptyCM 0 "r" "u") 0 "r" "u") :=
  connect_disconnect_roundtrip emptyCM 0 "r" "u" (roomMembers_empty "r")
    (AList.lookup_empty "u")

/-- C3.  If room "algebra-101" holds exactly the two distinct connections
`c1` and `c2`, broadcasting with `exclude = c1` attempts a send only on
`c2`; when the send to `c2` fails the call still returns (the model is total:
the source catches every send exception inside the loop) and afterwards
the participant count of the room is 1. -/
theorem broadcast_exclude_failure_scenario (s : ConnectionManager) (c1 c2 : ℕ)
    (hne : c1 ≠ c2)
    (h : s.active_connections.lookup "algebra-101" = some {c1, c2}) :
    (broadcast_to_room s "algebra-101" (some c1) {c2}).1 = {c2} ∧
    get_room_participants
      (broadcast_to_room s "algebra-101" (some c1) {c2}).2 "algebra-101" = 1 := by
  have hsent : ({c1, c2} : Finset ℕ).filter (fun c => some c ≠ some c1) = {c2} := by
    ext x
    simp only [Finset.mem_filter, Finset.mem_insert, Finset.mem_singleton, ne_eq,
      Option.some.injEq]
    constructor
    · rintro ⟨h1 | h1, h2⟩
      · exact absurd h1 h2
      · exact h1
    · rintro rfl
      exact ⟨Or.inr rfl, fun hh => hne hh.symm⟩
  have hdisc : (({c1, c2} : Finset ℕ).filter (fun c => some c ≠ some c1)).filter
      (fun c => c ∈ ({c2} : Finset ℕ)) = {c2} := by
    rw [hsent]
    ext x
    simp
  have hrest : ({c1, c2} : Finset ℕ) \
      ((({c1, c2} : Finset ℕ).filter (fun c => some c ≠ some c1)).filter
        (fun c => c ∈ ({c2} : Finset ℕ))) = {c1} := by
    rw [hdisc]
    ext x
    simp only [Finset.mem_sdiff, Finset.mem_insert, Finset.mem_singleton]
    constructor
    · rintro ⟨h1 | h1, h2⟩
      · exact h1
      · exact absurd h1 h2
    · rintro rfl
      exact ⟨Or.inl rfl, fun hh => hne hh⟩
  unfold broadcast_to_room
  rw [h]
  dsimp only
  refine ⟨hsent, ?_⟩
  unfold get_room_participants
  rw [hrest, AList.lookup_insert]
  exact Finset.card_singleton c1

/-- Witness for C3: the scenario state of the spec, connection 2 of bob and
connection 1 of alice both in room "algebra-101". -/
theorem broadcast_exclude_failure_scenario_witness :
    (broadcast_to_room
      (connect (connect emptyCM 2 "algebra-101" "bob") 1 "algebra-101" "alice")
      "algebra-101" (some 1) {2}).1 = {2} ∧
    get_room_participants
      (broadcast_to_room
        (connect (connect emptyCM 2 "algebra-101" "bob") 1 "algebra-101" "alice")
        "algebra-101" (some 1) {2}).2 "algebra-101" = 1 :=
  broadcast_exclude_failure_scenario
    (connect (connect emptyCM 2 "algebra-101" "bob") 1 "algebra-101" "alice")
    1 2 (by decide) rfl

/-- The registry after `connect(c1 = 0, "math", "u")` followed by
`connect(c2 = 1, "math", "u")`: the identity "u" has been overwritten to
point at connection 1. -/
def overwrittenState : ConnectionManager :=
  connect (connect emptyCM 0 "math" "u") 1 "math" "u"

/-- C1.  Evaluation at the failing input: identity "u" points at
connection 1, yet `disconnect` of the *different* connection 0 deletes the
mapping anyway — the source removes the identity key whenever it is
present, without the identity→connection equality check the spec
requires, so the overwritten mapping u ↦ 1 is incorrectly cleared. -/
theorem disconnect_clears_overwritten_mapping :
    overwrittenState.user_connections.lookup "u" = some 1 ∧
    (1 : ℕ) ≠ 0 ∧
    (disconnect overwrittenState 0 "math" "u").user_connections.lookup "u" = none :=
  ⟨by decide, by decide, by decide⟩

/-- A registry with the single room "a" containing connection 0. -/
def oneRoomState : ConnectionManager := connect emptyCM 0 "a" "u"

/-- C2, counterexample.  In `broadcast_all`, a send is attempted on
connection 0 and the send to 0 fails, yet 0 is still a member of room "a"
afterwards: `broadcast_all` has no lazy cleanup, contrary to the claim
that failing connections are removed from the member set of their room. -/
theorem broadcast_all_leaves_failed_member :
    0 ∈ (broadcast_all oneRoomState {0}).1 ∧
    0 ∈ ({0} : Finset ℕ) ∧
    0 ∈ roomMembers (broadcast_all oneRoomState {0}).2 "a" :=
  ⟨by decide, by decide, by decide⟩

/-- C2, amended.  `broadcast_all` attempts a send on every connection of
every room, failures are swallowed, and the registry state is returned
completely unchanged — no connection is removed. -/
theorem broadcast_all_sends_all_state_unchanged (s : ConnectionManager)
    (fails : Finset ℕ) :
    (broadcast_all s fails).2 = s ∧
    ∀ room c, c ∈ roomMembers s room → c ∈ (broadcast_all s fails).1 := by
  refine ⟨rfl, ?_⟩
  intro room c hc
  unfold roomMembers at hc
  cases hh : s.active_connections.lookup room with
  | none => rw [hh] at hc; exact absurd hc (Finset.not_mem_empty c)
  | some ms =>
      rw [hh] at hc
      have hmem : (Sigma.mk room ms) ∈ s.active_connections.entries :=
        AList.mem_lookup_iff.mp (Option.mem_def.mpr hh)
      exact mem_foldr_union hmem hc

/-- Witness for C2 (amended): on the one-room registry, the state is
unchanged and a send is attempted on member 0. -/
theorem broadcast_all_sends_all_state_unchanged_witness :
    (broadcast_all oneRoomState ∅).2 = oneRoomState ∧
    0 ∈ (broadcast_all oneRoomState ∅).1 :=
  ⟨(broadcast_all_sends_all_state_unchanged oneRoomState ∅).1,
   (broadcast_all_sends_all_state_unchanged oneRoomState ∅).2 "a" 0 (by decide)⟩

/-- The registry after `connect(0, "r1", "u")` followed by
`connect(0, "r2", "u")` — the same connection joined a second room without
leaving the first. -/
def twoRoomState : ConnectionManager :=
  connect (connect emptyCM 0 "r1" "u") 0 "r2" "u"

/-- C6, counterexample.  A state reachable from the fresh registry by two
`connect` calls in which connection 0 is a member of the two distinct
rooms "r1" and "r2" simultaneously: `connect` never removes a connection
from its previous room. -/
theorem connection_in_two_rooms :
    Reachable twoRoomState ∧
    0 ∈ roomMembers twoRoomState "r1" ∧
    0 ∈ roomMembers twoRoomState "r2" ∧
    "r1" ≠ "r2" :=
  ⟨Reachable.conn 0 "r2" "u" (Reachable.conn 0 "r1" "u" Reachable.empty),
   by decide, by decide, by decide⟩

/-- C6, amended.  If every `connect` in the call sequence is for a
connection that is currently in the member set of no room (the intended usage:
one `connect` per fresh channel), then in every reachable state each
connection appears in the member set of at most one room. -/
theorem at_most_one_room_of_fresh (s : ConnectionManager)
    (h : ReachableFresh s) :
    ∀ c r1 r2, c ∈ roomMembers s r1 → c ∈ roomMembers s r2 → r1 = r2 := by
  induction h with
  | empty =>
      intro c r1 r2 h1 _
      rw [roomMembers_empty] at h1
      exact absurd h1 (Finset.not_mem_empty c)
  | conn ws room user _ hfresh ih =>
      intro c r1 r2 h1 h2
      rw [roomMembers_connect] at h1 h2
      by_cases e1 : r1 = room <;> by_cases e2 : r2 = room
      · rw [e1, e2]
      · rw [if_pos e1] at h1
        rw [if_neg e2] at h2
        rcases Finset.mem_insert.mp h1 with rfl | h1m
        · exact absurd h2 (hfresh r2)
        · exact e1.trans (ih c room r2 h1m h2)
      · rw [if_neg e1] at h1
        rw [if_pos e2] at h2
        rcases Finset.mem_insert.mp h2 with rfl | h2m
        · exact absurd h1 (hfresh r1)
        · exact (ih c r1 room h1 h2m).trans e2.symm
      · rw [if_neg e1] at h1
        rw [if_neg e2] at h2
        exact ih c r1 r2 h1 h2
  | disc ws room user _ ih =>
      intro c r1 r2 h1 h2
      exact ih c r1 r2 (roomMembers_disconnect_subset _ _ _ _ _ h1)
        (roomMembers_disconnect_subset _ _ _ _ _ h2)

/-- Witness for C6 (amended): after a single fresh connect, membership of
connection 0 in room "r" twice over forces equality of the room names. -/
theorem at_most_one_room_of_fresh_witness : ("r" : String) = "r" :=
  at_most_one_room_of_fresh (connect emptyCM 0 "r" "u")
    (ReachableFresh.conn 0 "r" "u" ReachableFresh.empty
      (fun r => by rw [roomMembers_empty]; exact Finset.not_mem_empty 0))
    0 "r" "r" (by decide) (by decide)

end VoiceAgent
